import Mathlib

/-!
Shallow embedding of `src/alert_manager.py` (class `AlertManager`) and proofs
of the specification claims about it.

Modelling conventions:
* Timestamps (`datetime.now()`) are modelled as `Int` clock readings at the
  finest granularity the code observes (microseconds, via `%f` in
  `_generate_alert_id` and via comparison of ISO-8601 strings, which for the
  fixed-width format agrees with chronological order).  Each call of an
  `AlertManager` method receives one clock reading `now`.
* Python floats carried opaquely by the code (`confidence`, `ml_scores`) are
  modelled as `Rat`; no claim computes with them.
* A `deque(maxlen=n)` is a `List` with the oldest element at the head;
  appending to a full deque drops the head (`appendB`).
* A Python dict used as an ordered association map (`alert_counts`,
  `severity_counts`, `ip_counts`) is a `List (String × Nat)` in insertion
  order; `d[k] = d.get(k, 0) + 1` is `bumpCount`.
* The history file `data/alert_history.json` is modelled by the `history`
  field of the state: the JSON array of records currently on disk.  File I/O
  is abstracted to reading and replacing that list (the success path; the
  `except` clauses swallow I/O failures, which are outside this embedding).
* `Config.MAX_ALERTS_PER_MINUTE` comes from a `config` module that is not part
  of the repository; per the spec it is an injected configuration input, so it
  is a parameter `K` of the operations that consult it.
-/

/-- An alert record, with exactly the fields built by
`AlertManager.create_alert` (src/alert_manager.py lines 35-51), plus the
`acknowledged_at` field that `acknowledge_alert` adds (`none` = key absent). -/
structure Alert where
  id : String
  timestamp : Int
  ip : String
  path : String
  method : String
  user_agent : String
  status : Int
  is_suspicious : Bool
  confidence : Rat
  detection_method : String
  reasons : List String
  severity : String
  ml_scores : List (String × Rat)
  acknowledged : Bool
  notes : String
  acknowledged_at : Option Int
deriving DecidableEq

/-- The `request_data` dict: `.get(key, default)` is modelled by `Option`
fields (`none` = key absent, so the default is used). -/
structure RequestData where
  ip : Option String
  path : Option String
  method : Option String
  user_agent : Option String
  status : Option Int
deriving DecidableEq

/-- The `detection_result` dict.  `create_alert` indexes `is_suspicious`,
`confidence`, `detection_method`, `reasons` and `severity` directly (they must
be present) and uses `.get` only for `ml_scores`. -/
structure DetectionResult where
  is_suspicious : Bool
  confidence : Rat
  detection_method : String
  reasons : List String
  severity : String
  ml_scores : Option (List (String × Rat))
deriving DecidableEq

/-- The mutable state of an `AlertManager` instance together with the content
of the history file it owns. -/
structure AMState where
  alerts : List Alert
  alert_counts : List (String × Nat)
  recent_alerts : List Int
  history : List Alert
deriving DecidableEq

/-- The last `n` elements of a list: Python `l[-n:]`, and also the content of
a `deque(maxlen=n)` after appending the elements of `l` in order. -/
def lastN (n : Nat) (l : List α) : List α :=
  l.drop (l.length - n)

/-- Append to a `deque(maxlen=cap)`: when full, the oldest (head) element is
discarded. -/
def appendB (cap : Nat) (l : List α) (a : α) : List α :=
  if cap ≤ l.length then l.drop 1 ++ [a] else l ++ [a]

/-- `d[k] = d.get(k, 0) + 1` on an insertion-ordered dict. -/
def bumpCount : List (String × Nat) → String → List (String × Nat)
  | [], k => [(k, 1)]
  | (k', v) :: rest, k =>
      if k' = k then (k', v + 1) :: rest else (k', v) :: bumpCount rest k

/-- The `while self.recent_alerts and self.recent_alerts[0] < cutoff:
popleft()` loop of `_should_create_alert` with `cutoff = now - 60` seconds. -/
def evictOld (now : Int) (w : List Int) : List Int :=
  w.dropWhile (fun ts => decide (ts < now - 60))

/-- `AlertManager._should_create_alert` (lines 66-78): evicts stale
timestamps, then admits iff the remaining window is below
`Config.MAX_ALERTS_PER_MINUTE` (the parameter `K`).  Returns the admission
decision together with the mutated window. -/
def should_create_alert (K : Nat) (now : Int) (w : List Int) :
    Bool × List Int :=
  let w' := evictOld now w
  (decide (w'.length < K), w')

/-- `AlertManager._generate_alert_id` (lines 80-83):
`"ALERT-" + now.strftime(...%f)`, a pure function of the microsecond clock
reading. -/
def generate_alert_id (now : Int) : String :=
  "ALERT-" ++ toString now

/-- `AlertManager.save_alert` (lines 169-190), success path: load the file,
append the record, keep the last 10000, rewrite the file. -/
def save_alert (history : List Alert) (a : Alert) : List Alert :=
  lastN 10000 (history ++ [a])

/-- The record literal of `create_alert` (lines 35-51). -/
def buildAlert (now : Int) (rd : RequestData) (dr : DetectionResult) : Alert :=
  { id := generate_alert_id now
    timestamp := now
    ip := rd.ip.getD "unknown"
    path := rd.path.getD "unknown"
    method := rd.method.getD "unknown"
    user_agent := rd.user_agent.getD "unknown"
    status := rd.status.getD 0
    is_suspicious := dr.is_suspicious
    confidence := dr.confidence
    detection_method := dr.detection_method
    reasons := dr.reasons
    severity := dr.severity
    ml_scores := dr.ml_scores.getD []
    acknowledged := false
    notes := ""
    acknowledged_at := none }

/-- `AlertManager.create_alert` (lines 20-64): rate-limit check (which
mutates the window), build the record, append to the `maxlen=1000` deque,
record the timestamp in the `maxlen=100` deque, bump the per-IP count, persist
via `save_alert`; on rejection return `None` having only run the check. -/
def create_alert (K : Nat) (now : Int) (rd : RequestData)
    (dr : DetectionResult) (s : AMState) : Option Alert × AMState :=
  let (ok, w') := should_create_alert K now s.recent_alerts
  if ok then
    let alert := buildAlert now rd dr
    (some alert,
      { alerts := appendB 1000 s.alerts alert
        alert_counts := bumpCount s.alert_counts alert.ip
        recent_alerts := appendB 100 w' now
        history := save_alert s.history alert })
  else
    (none, { s with recent_alerts := w' })

/-- Descending stable-enough insertion by an `Int` key (used to model
Python `sorted(..., reverse=True)` / `list.sort(reverse=True)`; the claims
constrain only sortedness and multiset content, not tie order). -/
def insertByDesc (key : α → Int) (a : α) : List α → List α
  | [] => [a]
  | b :: l => if key b < key a then a :: b :: l else b :: insertByDesc key a l

/-- Sort a list descending by an `Int` key. -/
def sortByDesc (key : α → Int) (l : List α) : List α :=
  l.foldr (insertByDesc key) []

/-- `AlertManager.get_alerts` (lines 85-108).  `if severity:` is Python
truthiness: the filter is applied iff the argument is present and non-empty;
`if acknowledged is not None:` applies iff present. -/
def get_alerts (s : AMState) (limit : Nat) (severity : Option String)
    (acknowledged : Option Bool) : List Alert :=
  let alerts := s.alerts
  let alerts :=
    match severity with
    | some sev => if sev = "" then alerts else alerts.filter (fun a => a.severity = sev)
    | none => alerts
  let alerts :=
    match acknowledged with
    | some ack => alerts.filter (fun a => a.acknowledged = ack)
    | none => alerts
  (sortByDesc (fun a => a.timestamp) alerts).take limit

/-- `AlertManager.get_alert_by_id` (lines 110-115): first record with the id,
else `None`. -/
def get_alert_by_id (s : AMState) (alert_id : String) : Option Alert :=
  s.alerts.find? (fun a => a.id = alert_id)

/-- The in-place mutation performed by `acknowledge_alert` (lines 121-123):
set `acknowledged = True`, the notes, and `acknowledged_at = now`. -/
def ackUpdate (a : Alert) (notes : String) (now : Int) : Alert :=
  { a with acknowledged := true, notes := notes, acknowledged_at := some now }

/-- The loop body of `acknowledge_alert`: update the first record with the
given id in place and report the updated record, or `none` when absent. -/
def ackLoop (alert_id notes : String) (now : Int) :
    List Alert → Option (List Alert × Alert)
  | [] => none
  | a :: rest =>
      if a.id = alert_id then
        let a' := ackUpdate a notes now
        some (a' :: rest, a')
      else
        match ackLoop alert_id notes now rest with
        | none => none
        | some (rest', upd) => some (a :: rest', upd)

/-- `AlertManager.acknowledge_alert` (lines 117-126): mutate the first record
with the id, persist it via `save_alert`, return `True`; return `False` when
no record has the id. -/
def acknowledge_alert (alert_id notes : String) (now : Int) (s : AMState) :
    Bool × AMState :=
  match ackLoop alert_id notes now s.alerts with
  | none => (false, s)
  | some (alerts', upd) =>
      (true, { s with alerts := alerts', history := save_alert s.history upd })

/-- The dict returned by `get_statistics`.  The empty-store branch (lines
130-136) returns a dict without the `acknowledged_count` and
`unacknowledged_count` keys; `Option` models key presence. -/
structure Stats where
  total_alerts : Nat
  by_severity : List (String × Nat)
  by_ip : List (String × Nat)
  recent_count : Nat
  acknowledged_count : Option Nat
  unacknowledged_count : Option Nat
deriving DecidableEq

/-- `AlertManager.get_statistics` (lines 128-167). -/
def get_statistics (now : Int) (s : AMState) : Stats :=
  if s.alerts.isEmpty then
    { total_alerts := 0
      by_severity := []
      by_ip := []
      recent_count := 0
      acknowledged_count := none
      unacknowledged_count := none }
  else
    let severity_counts :=
      s.alerts.foldl (fun m a => bumpCount m a.severity)
        [("low", 0), ("medium", 0), ("high", 0)]
    let ip_counts := s.alerts.foldl (fun m a => bumpCount m a.ip) []
    let top_ips := (sortByDesc (fun p => (p.2 : Int)) ip_counts).take 10
    let recent_count :=
      s.alerts.countP (fun a => decide (now - 3600 < a.timestamp))
    { total_alerts := s.alerts.length
      by_severity := severity_counts
      by_ip := top_ips
      recent_count := recent_count
      acknowledged_count := some (s.alerts.countP (fun a => a.acknowledged))
      unacknowledged_count :=
        some (s.alerts.countP (fun a => !a.acknowledged)) }

/-- `AlertManager.load_history` (lines 192-206), success path: append the
last 1000 file records, in file order, into the empty `maxlen=1000` deque. -/
def load_history (history : List Alert) : List Alert :=
  lastN 1000 history

/-- `AlertManager.__init__` (lines 9-18) with history file content `h`:
empty deques and counts, then `load_history`. -/
def mkInit (h : List Alert) : AMState :=
  { alerts := load_history h
    alert_counts := []
    recent_alerts := []
    history := h }

/-- Run a sequence of `create_alert` calls (each a clock reading plus the two
argument dicts), collecting the results. -/
def runCreates (K : Nat) :
    List (Int × RequestData × DetectionResult) → AMState →
    List (Option Alert) × AMState
  | [], s => ([], s)
  | (t, rd, dr) :: rest, s =>
      let (r, s') := create_alert K t rd dr s
      let (rs, s'') := runCreates K rest s'
      (r :: rs, s'')

/-- The records actually created by a run, in creation order. -/
def createdOf (rs : List (Option Alert)) : List Alert :=
  rs.filterMap id

/-! ### Concrete inputs reused by several witnesses and counterexamples -/

/-- A request dict with every optional key absent (all fields default). -/
def rdU : RequestData := ⟨none, none, none, none, none⟩

/-- A minimal detection result. -/
def drU : DetectionResult := ⟨true, 1, "rule", [], "high", none⟩

/-- 1001 alert records with pairwise distinct timestamps (hence distinct). -/
def witC1 : List Alert :=
  (List.range 1001).map (fun i => buildAlert (Int.ofNat i) rdU drU)

/-- One admitted call at tick 5, from a fresh manager. -/
def ackDemoState1 : AMState :=
  (runCreates 10 [((5 : Int), rdU, drU)] (mkInit [])).2

/-- `ackDemoState1` after acknowledging its single alert at tick 7. -/
def ackDemoState2 : AMState :=
  (acknowledge_alert "ALERT-5" "checked" 7 ackDemoState1).2

/-- 102 calls at the same tick, against a configured maximum of 101. -/
def burstCalls102 : List (Int × RequestData × DetectionResult) :=
  List.replicate 102 ((0 : Int), rdU, drU)

/-- 3 calls at the same tick, against a configured maximum of 2. -/
def burstCalls3 : List (Int × RequestData × DetectionResult) :=
  List.replicate 3 ((0 : Int), rdU, drU)

/-- The record-selection predicate of the spec of `list(limit, severityFilter?,
acknowledgedFilter?)`: exact severity match and exact acknowledgment match,
each filter optional, combined with logical AND.  Written from the spec, to be
compared with the filtering `get_alerts` actually performs. -/
def matchesFiltersSpec (severity : Option String) (acknowledged : Option Bool)
    (a : Alert) : Bool :=
  (match severity with
   | some sev => decide (a.severity = sev)
   | none => true)
  && (match acknowledged with
      | some ack => decide (a.acknowledged = ack)
      | none => true)


/-! ### Shared lemmas about the list-level building blocks -/

theorem lastN_length_le (n : Nat) (l : List α) : (lastN n l).length ≤ n := by
  simp [lastN]
  omega

theorem lastN_eq_self {n : Nat} {l : List α} (h : l.length ≤ n) :
    lastN n l = l := by
  simp [lastN, Nat.sub_eq_zero_of_le h]

theorem lastN_nil (n : Nat) : lastN n ([] : List α) = [] := by
  simp [lastN]

theorem appendB_lastN {cap : Nat} (hc : 0 < cap) (l : List α) (a : α) :
    appendB cap (lastN cap l) a = lastN cap (l ++ [a]) := by
  by_cases h : l.length ≤ cap
  · rw [lastN_eq_self h]
    unfold appendB lastN
    by_cases h' : cap ≤ l.length
    · have hlc : l.length = cap := Nat.le_antisymm h h'
      rw [if_pos h', List.length_append, List.length_singleton,
        List.drop_append_of_le_length (show l.length + 1 - cap ≤ l.length by omega)]
      have h1 : l.length + 1 - cap = 1 := by omega
      rw [h1]
    · rw [if_neg h']
      have : l.length + 1 - cap = 0 := by omega
      simp [this]
  · have hcl : cap < l.length := Nat.lt_of_not_le h
    have hlen : (List.drop (l.length - cap) l).length = cap := by
      rw [List.length_drop]; omega
    unfold appendB lastN
    rw [if_pos (le_of_eq hlen.symm), List.drop_drop,
      List.length_append, List.length_singleton,
      List.drop_append_of_le_length (show l.length + 1 - cap ≤ l.length by omega)]
    have heq : l.length - cap + 1 = l.length + 1 - cap := by omega
    rw [heq]

theorem foldl_appendB {cap : Nat} (hc : 0 < cap) :
    ∀ (rs : List α) (l : List α),
      rs.foldl (appendB cap) (lastN cap l) = lastN cap (l ++ rs)
  | [], l => by simp
  | r :: rs, l => by
    rw [List.foldl_cons, appendB_lastN hc, foldl_appendB hc rs (l ++ [r])]
    simp

theorem foldl_appendB_nil {cap : Nat} (hc : 0 < cap) (rs : List α) :
    rs.foldl (appendB cap) [] = lastN cap rs := by
  have h := foldl_appendB hc rs []
  rw [lastN_nil, List.nil_append] at h
  exact h

theorem length_appendB_le {cap : Nat} (hc : 0 < cap) {l : List α}
    (h : l.length ≤ cap) (a : α) : (appendB cap l a).length ≤ cap := by
  unfold appendB
  by_cases h' : cap ≤ l.length
  · rw [if_pos h', List.length_append, List.length_singleton, List.length_drop]
    omega
  · rw [if_neg h', List.length_append, List.length_singleton]
    omega

theorem dropWhile_all_false {p : α → Bool} :
    ∀ {l : List α}, (∀ x ∈ l, p x = false) → l.dropWhile p = l
  | [], _ => rfl
  | a :: l, h => by
    have ha : p a = false := h a (List.mem_cons_self a l)
    simp [List.dropWhile, ha]

theorem length_dropWhile_le' (p : α → Bool) :
    ∀ l : List α, (l.dropWhile p).length ≤ l.length
  | [] => Nat.le_refl 0
  | a :: l => by
    by_cases h : p a
    · simp only [List.dropWhile, h]
      exact Nat.le_trans (length_dropWhile_le' p l) (by simp)
    · simp [List.dropWhile, h]

theorem dropWhile_eq_self_of_length {p : α → Bool} :
    ∀ {l : List α}, (l.dropWhile p).length = l.length → l.dropWhile p = l
  | [], _ => rfl
  | a :: l, h => by
    by_cases hpa : p a
    · exfalso
      simp only [List.dropWhile, hpa] at h
      have := length_dropWhile_le' p l
      simp at h
      omega
    · simp [List.dropWhile, hpa]

theorem dropWhile_sorted_ge {c : Int} :
    ∀ {l : List Int}, l.Pairwise (fun x y => x ≤ y) →
      ∀ x ∈ l.dropWhile (fun ts => decide (ts < c)), c ≤ x
  | [], _, x, hx => by simp [List.dropWhile] at hx
  | a :: l, hp, x, hx => by
    by_cases ha : a < c
    · simp only [List.dropWhile, decide_eq_true ha] at hx
      exact dropWhile_sorted_ge (List.Pairwise.of_cons hp) x hx
    · simp only [List.dropWhile, decide_eq_false ha] at hx
      rcases List.mem_cons.mp hx with rfl | hx'
      · omega
      · have := (List.pairwise_cons.mp hp).1 x hx'
        omega

theorem countP_add_countP_not (p : α → Bool) :
    ∀ l : List α, l.countP p + l.countP (fun a => !p a) = l.length
  | [] => rfl
  | a :: l => by
    by_cases h : p a <;>
      simp [List.countP_cons, h, ← countP_add_countP_not p l] <;> omega

theorem countP_replicate (p : α → Bool) (n : Nat) (a : α) :
    (List.replicate n a).countP p = if p a then n else 0 := by
  induction n with
  | zero => simp
  | succ n ih =>
    by_cases h : p a <;> simp [List.replicate_succ, List.countP_cons, h, ih]

theorem perm_insertByDesc (key : α → Int) (a : α) :
    ∀ l : List α, (insertByDesc key a l).Perm (a :: l)
  | [] => List.Perm.refl _
  | b :: l => by
    unfold insertByDesc
    by_cases h : key b < key a
    · rw [if_pos h]
    · rw [if_neg h]
      exact List.Perm.trans ((perm_insertByDesc key a l).cons b)
        (List.Perm.swap a b l)

theorem pairwise_insertByDesc (key : α → Int) (a : α) :
    ∀ {l : List α}, l.Pairwise (fun x y => key y ≤ key x) →
      (insertByDesc key a l).Pairwise (fun x y => key y ≤ key x)
  | [], _ => List.pairwise_singleton _ a
  | b :: l, hp => by
    unfold insertByDesc
    rcases List.pairwise_cons.mp hp with ⟨hb, hl⟩
    by_cases h : key b < key a
    · rw [if_pos h]
      refine List.pairwise_cons.mpr ⟨?_, hp⟩
      intro x hx
      rcases List.mem_cons.mp hx with rfl | hx'
      · omega
      · have := hb x hx'
        omega
    · rw [if_neg h]
      refine List.pairwise_cons.mpr ⟨?_, pairwise_insertByDesc key a hl⟩
      intro x hx
      have hx' := (perm_insertByDesc key a l).mem_iff.mp hx
      rcases List.mem_cons.mp hx' with rfl | hx''
      · omega
      · exact hb x hx''

theorem perm_sortByDesc (key : α → Int) :
    ∀ l : List α, (sortByDesc key l).Perm l
  | [] => List.Perm.refl _
  | a :: l => by
    unfold sortByDesc
    rw [List.foldr_cons]
    exact List.Perm.trans (perm_insertByDesc key a _)
      ((perm_sortByDesc key l).cons a)

theorem pairwise_sortByDesc (key : α → Int) :
    ∀ l : List α, (sortByDesc key l).Pairwise (fun x y => key y ≤ key x)
  | [] => List.Pairwise.nil
  | a :: l => by
    unfold sortByDesc
    rw [List.foldr_cons]
    exact pairwise_insertByDesc key a (pairwise_sortByDesc key l)

theorem filter_fuse (p q : α → Bool) :
    ∀ l : List α, (l.filter p).filter q = l.filter (fun a => p a && q a)
  | [] => rfl
  | a :: l => by
    by_cases hp : p a <;> by_cases hq : q a <;>
      simp [List.filter_cons, hp, hq, filter_fuse p q l]

theorem find?_append_of_all_false {p : α → Bool} {l₁ : List α}
    (h : ∀ x ∈ l₁, p x = false) (l₂ : List α) :
    (l₁ ++ l₂).find? p = l₂.find? p := by
  induction l₁ with
  | nil => simp
  | cons a l ih =>
    have ha : p a = false := h a (List.mem_cons_self a l)
    simp only [List.cons_append, List.find?_cons, ha]
    exact ih (fun x hx => h x (List.mem_cons_of_mem a hx))

/-! ### Step lemmas for `create_alert` and `runCreates` -/

theorem create_alert_admitted {K : Nat} {now : Int} {rd : RequestData}
    {dr : DetectionResult} {s : AMState}
    (h : (evictOld now s.recent_alerts).length < K) :
    create_alert K now rd dr s
      = (some (buildAlert now rd dr),
         { alerts := appendB 1000 s.alerts (buildAlert now rd dr)
           alert_counts := bumpCount s.alert_counts (buildAlert now rd dr).ip
           recent_alerts := appendB 100 (evictOld now s.recent_alerts) now
           history := save_alert s.history (buildAlert now rd dr) }) := by
  simp [create_alert, should_create_alert, h]

theorem create_alert_reject {K : Nat} {now : Int} {rd : RequestData}
    {dr : DetectionResult} {s : AMState}
    (h : ¬ (evictOld now s.recent_alerts).length < K) :
    create_alert K now rd dr s
      = (none, { s with recent_alerts := evictOld now s.recent_alerts }) := by
  simp [create_alert, should_create_alert, h]

theorem runCreates_cons (K : Nat) (t : Int) (rd : RequestData)
    (dr : DetectionResult) (rest : List (Int × RequestData × DetectionResult))
    (s : AMState) :
    runCreates K ((t, rd, dr) :: rest) s
      = ((create_alert K t rd dr s).1
            :: (runCreates K rest (create_alert K t rd dr s).2).1,
         (runCreates K rest (create_alert K t rd dr s).2).2) := by
  simp [runCreates]

theorem runCreates_alerts_lastN (K : Nat) :
    ∀ (calls : List (Int × RequestData × DetectionResult)) (s : AMState)
      (l : List Alert), s.alerts = lastN 1000 l →
      ((runCreates K calls s).2).alerts
        = lastN 1000 (l ++ createdOf (runCreates K calls s).1)
  | [], s, l, h => by simpa [runCreates, createdOf] using h
  | (t, rd, dr) :: rest, s, l, h => by
    rw [runCreates_cons]
    by_cases hadm : (evictOld t s.recent_alerts).length < K
    · rw [create_alert_admitted hadm]
      have hs₁ : (appendB 1000 s.alerts (buildAlert t rd dr))
          = lastN 1000 (l ++ [buildAlert t rd dr]) := by
        rw [h, appendB_lastN (by omega)]
      have ih := runCreates_alerts_lastN K rest
        { alerts := appendB 1000 s.alerts (buildAlert t rd dr)
          alert_counts := bumpCount s.alert_counts (buildAlert t rd dr).ip
          recent_alerts := appendB 100 (evictOld t s.recent_alerts) t
          history := save_alert s.history (buildAlert t rd dr) }
        (l ++ [buildAlert t rd dr]) hs₁
      simp only [createdOf, List.filterMap_cons, id] at ih ⊢
      rw [ih]
      simp [List.append_assoc]
    · rw [create_alert_reject hadm]
      have hs₁ : ({ s with recent_alerts := evictOld t s.recent_alerts
                  } : AMState).alerts = lastN 1000 l := h
      have ih := runCreates_alerts_lastN K rest
        { s with recent_alerts := evictOld t s.recent_alerts } l hs₁
      simp only [createdOf, List.filterMap_cons, id] at ih ⊢
      exact ih


/-- C1: for every sequence of admitted `create_alert` calls the in-memory
store is exactly the last 1000 created records (so it holds at most 1000 and
eviction is oldest-first); after inserting 1001 distinct records the first is
absent and the last 1000 are present in insertion order; and the persisted
history holds at most 10000 records after any `save_alert`. -/
theorem createAlert_store_bounds :
    (∀ (K : Nat) (calls : List (Int × RequestData × DetectionResult)),
        ((runCreates K calls (mkInit [])).2).alerts
          = lastN 1000 (createdOf (runCreates K calls (mkInit [])).1)
        ∧ ((runCreates K calls (mkInit [])).2).alerts.length ≤ 1000)
    ∧ (∀ rs : List Alert, rs.Nodup → rs.length = 1001 →
        lastN 1000 rs = rs.tail
        ∧ ∀ a, rs.head? = some a → a ∉ lastN 1000 rs)
    ∧ (∀ (h : List Alert) (a : Alert), (save_alert h a).length ≤ 10000) := by
  refine ⟨?_, ?_, ?_⟩
  · intro K calls
    have h0 : (mkInit []).alerts = lastN 1000 ([] : List Alert) := by
      simp [mkInit, load_history, lastN_nil]
    have h := runCreates_alerts_lastN K calls (mkInit []) [] h0
    rw [List.nil_append] at h
    exact ⟨h, h ▸ lastN_length_le _ _⟩
  · intro rs hnd hlen
    cases rs with
    | nil => simp at hlen
    | cons a t =>
      have ht : t.length = 1000 := by
        simp at hlen
        omega
      have h1 : lastN 1000 (a :: t) = t := by
        unfold lastN
        have : (a :: t).length - 1000 = 1 := by simp [ht]
        rw [this, List.drop_one, List.tail_cons]
      refine ⟨h1, ?_⟩
      intro x hx
      rw [List.head?_cons, Option.some_inj] at hx
      subst hx
      rw [h1]
      exact (List.nodup_cons.mp hnd).1
  · intro h a
    exact lastN_length_le _ _

/-- Witness for C1 at 1001 concrete pairwise-distinct records. -/
theorem createAlert_store_bounds_witness :
    (witC1.Nodup ∧ witC1.length = 1001)
    ∧ lastN 1000 witC1 = witC1.tail
    ∧ (witC1.head? = some (buildAlert 0 rdU drU)
        ∧ buildAlert 0 rdU drU ∉ lastN 1000 witC1) := by
  have hnd : witC1.Nodup := by
    unfold witC1
    refine List.Nodup.map ?_ (List.nodup_range 1001)
    intro i j hij
    have h := congrArg Alert.timestamp hij
    simp only [buildAlert] at h
    exact Int.ofNat.inj h
  have hlen : witC1.length = 1001 := by simp [witC1]
  have h := createAlert_store_bounds.2.1 witC1 hnd hlen
  have hhead : witC1.head? = some (buildAlert 0 rdU drU) := by
    rw [witC1, List.head?_map]
    rw [show List.range 1001 = 0 :: List.range' 1 1000 by rw [List.range_eq_range']; rfl]
    rfl
  exact ⟨⟨hnd, hlen⟩, h.1, hhead, h.2 _ hhead⟩

/-- C3: `_generate_alert_id` is the pure function
`tick ↦ "ALERT-" ++ tick`, with no monotonic disambiguator, so two alerts
admitted within the same microsecond tick receive the *same* id: here two
admitted `create_alert` calls at tick 0 both yield id `ALERT-0`.  This
contradicts the claimed uniqueness under burst admission. -/
theorem id_collision_same_tick :
    (runCreates 10 [((0 : Int), rdU, drU), ((0 : Int), rdU, drU)]
        (mkInit [])).1.map (Option.map Alert.id)
      = [some "ALERT-0", some "ALERT-0"]
    ∧ (∀ now : Int, generate_alert_id now = "ALERT-" ++ toString now) := by
  exact ⟨by decide, fun _ => rfl⟩

/-- C7 counterexample: on an empty store `get_statistics` returns a dict
*without* the `acknowledged_count` and `unacknowledged_count` keys, although
the claim says every sub-field of the contract is present. -/
theorem stats_empty_ctrex :
    (get_statistics 0 (mkInit [])).acknowledged_count = none
    ∧ (get_statistics 0 (mkInit [])).unacknowledged_count = none := by
  decide

/-- C7 amended: on an empty store `get_statistics` does not fail and returns
total 0, empty severity histogram, empty top sources and recent count 0, but
the acknowledged/unacknowledged counts are absent from the result. -/
theorem stats_empty_amended :
    ∀ (now : Int) (s : AMState), s.alerts = [] →
      get_statistics now s
        = { total_alerts := 0, by_severity := [], by_ip := [],
            recent_count := 0, acknowledged_count := none,
            unacknowledged_count := none } := by
  intro now s h
  simp [get_statistics, h]

/-- Witness for the amended C7 at the concrete empty manager. -/
theorem stats_empty_amended_witness :
    (mkInit []).alerts = ([] : List Alert)
    ∧ get_statistics 0 (mkInit [])
        = { total_alerts := 0, by_severity := [], by_ip := [],
            recent_count := 0, acknowledged_count := none,
            unacknowledged_count := none } :=
  ⟨by decide, stats_empty_amended 0 (mkInit []) (by decide)⟩

/-! ### Round-trip lemmas for `save_alert` / `load_history` -/

theorem lastN_lastN {n m : Nat} (h : n ≤ m) (l : List α) :
    lastN n (lastN m l) = lastN n l := by
  unfold lastN
  rw [List.drop_drop, List.length_drop]
  congr 1
  omega

theorem lastN_append_singleton {cap : Nat} (hc : 0 < cap) {l : List α}
    (h : l.length ≤ cap) (a : α) :
    lastN cap (l ++ [a]) = appendB cap l a := by
  unfold lastN appendB
  by_cases h' : cap ≤ l.length
  · rw [if_pos h', List.length_append, List.length_singleton,
      List.drop_append_of_le_length (show l.length + 1 - cap ≤ l.length by omega),
      show l.length + 1 - cap = 1 by omega]
  · rw [if_neg h', List.length_append, List.length_singleton,
      show l.length + 1 - cap = 0 by omega, List.drop_zero]

theorem save_alert_lastN (l : List Alert) (a : Alert) :
    save_alert (lastN 10000 l) a = lastN 10000 (l ++ [a]) := by
  unfold save_alert
  rw [lastN_append_singleton (by omega) (lastN_length_le 10000 l) a,
    appendB_lastN (by omega)]

theorem foldl_save_alert (rs : List Alert) :
    ∀ l : List Alert,
      rs.foldl save_alert (lastN 10000 l) = lastN 10000 (l ++ rs) := by
  induction rs with
  | nil => intro l; rw [List.foldl_nil, List.append_nil]
  | cons r rs ih =>
    intro l
    rw [List.foldl_cons, save_alert_lastN, ih (l ++ [r])]
    rw [List.append_assoc, List.singleton_append]

theorem foldl_save_alert_nil (rs : List Alert) :
    rs.foldl save_alert [] = lastN 10000 rs := by
  have h := foldl_save_alert rs []
  rw [lastN_nil, List.nil_append] at h
  exact h

set_option maxRecDepth 100000 in
/-- C5 counterexample: persisting two records and starting a manager on the
resulting file loads them oldest-first — it does *not* yield them in
most-recent-first order as the claim states. -/
theorem roundtrip_order_ctrex :
    (mkInit ([buildAlert 0 rdU drU,
              buildAlert 1 rdU drU].foldl save_alert [])).alerts
        = [buildAlert 0 rdU drU, buildAlert 1 rdU drU]
    ∧ (mkInit ([buildAlert 0 rdU drU,
                buildAlert 1 rdU drU].foldl save_alert [])).alerts
        ≠ [buildAlert 1 rdU drU, buildAlert 0 rdU drU] := by
  decide

/-- C5 amended: persisting N records and reloading via the startup history
load yields the most recent `min N 1000` of them, equal by id and all field
values, in insertion order (most-recent last); for N ≤ 1000 this is exactly
the persisted sequence. -/
theorem roundtrip_load :
    (∀ rs : List Alert,
        load_history (rs.foldl save_alert []) = lastN 1000 rs)
    ∧ (∀ rs : List Alert, rs.length ≤ 1000 →
        load_history (rs.foldl save_alert []) = rs) := by
  have hgen : ∀ rs : List Alert,
      load_history (rs.foldl save_alert []) = lastN 1000 rs := by
    intro rs
    rw [foldl_save_alert_nil]
    unfold load_history
    exact lastN_lastN (by omega) rs
  exact ⟨hgen, fun rs h => (hgen rs).trans (lastN_eq_self h)⟩

set_option maxRecDepth 100000 in
/-- Witness for the amended C5 at two concrete records. -/
theorem roundtrip_load_witness :
    [buildAlert 0 rdU drU, buildAlert 1 rdU drU].length ≤ 1000
    ∧ load_history ([buildAlert 0 rdU drU,
                     buildAlert 1 rdU drU].foldl save_alert [])
        = [buildAlert 0 rdU drU, buildAlert 1 rdU drU] :=
  ⟨by decide, roundtrip_load.2 _ (by decide)⟩

/-! ### Lemmas about `ackLoop` / `acknowledge_alert` -/

theorem ackLoop_of_find?_none (alert_id notes : String) (now : Int) :
    ∀ {l : List Alert},
      l.find? (fun a => a.id = alert_id) = none →
      ackLoop alert_id notes now l = none
  | [], _ => rfl
  | b :: l, h => by
    rw [List.find?_cons] at h
    by_cases hb : b.id = alert_id
    · simp [hb] at h
    · simp only [decide_eq_false hb] at h
      unfold ackLoop
      rw [if_neg hb, ackLoop_of_find?_none alert_id notes now h]

theorem ackLoop_of_find?_some (alert_id notes : String) (now : Int) :
    ∀ {l : List Alert} {a : Alert},
      l.find? (fun a => a.id = alert_id) = some a →
      a.id = alert_id
      ∧ ∃ pre post,
          l = pre ++ a :: post
          ∧ (∀ x ∈ pre, ¬ x.id = alert_id)
          ∧ ackLoop alert_id notes now l
              = some (pre ++ ackUpdate a notes now :: post,
                      ackUpdate a notes now)
  | [], a, h => by simp at h
  | b :: l, a, h => by
    rw [List.find?_cons] at h
    by_cases hb : b.id = alert_id
    · simp only [decide_eq_true hb, Option.some_inj] at h
      subst h
      refine ⟨hb, [], l, by simp, by simp, ?_⟩
      unfold ackLoop
      rw [if_pos hb]
      simp
    · simp only [decide_eq_false hb] at h
      obtain ⟨ha, pre, post, hl, hpre, hloop⟩ :=
        ackLoop_of_find?_some alert_id notes now h
      refine ⟨ha, b :: pre, post, by rw [hl]; rfl, ?_, ?_⟩
      · intro x hx
        rcases List.mem_cons.mp hx with rfl | hx'
        · exact hb
        · exact hpre x hx'
      · unfold ackLoop
        rw [if_neg hb, hloop]
        rfl

/-- C4 counterexample: after one admitted alert at tick 5 is acknowledged,
the history file holds *two* entries with id `ALERT-5` — the original
unacknowledged entry followed by an appended acknowledged copy — instead of
having the entry rewritten in place by id. -/
theorem ack_replace_claim_ctrex :
    ackDemoState2.history.map (fun a => (a.id, a.acknowledged))
        = [("ALERT-5", false), ("ALERT-5", true)]
    ∧ ackDemoState2.history.countP (fun a => a.id = "ALERT-5") = 2 := by
  decide

theorem acknowledge_alert_of_find?_none (alert_id notes : String) (now : Int)
    (s : AMState)
    (h : s.alerts.find? (fun x => x.id = alert_id) = none) :
    acknowledge_alert alert_id notes now s = (false, s) := by
  unfold acknowledge_alert
  rw [ackLoop_of_find?_none alert_id notes now h]

theorem acknowledge_alert_of_find?_some (alert_id notes : String) (now : Int)
    (s : AMState) (a : Alert)
    (h : s.alerts.find? (fun x => x.id = alert_id) = some a) :
    a.id = alert_id
    ∧ ∃ pre post,
        s.alerts = pre ++ a :: post
        ∧ (∀ x ∈ pre, ¬ x.id = alert_id)
        ∧ acknowledge_alert alert_id notes now s
            = (true,
               { s with alerts := pre ++ ackUpdate a notes now :: post,
                        history := save_alert s.history
                          (ackUpdate a notes now) }) := by
  obtain ⟨ha, pre, post, hl, hpre, hloop⟩ :=
    ackLoop_of_find?_some alert_id notes now h
  refine ⟨ha, pre, post, hl, hpre, ?_⟩
  unfold acknowledge_alert
  rw [hloop]

/-- C4 amended: persisting an acknowledgment update runs `save_alert` on the
updated copy — the log is loaded, the copy is *appended* as a new entry with
the same id (the existing entry is not replaced), the log is truncated to the
most recent 10000 entries and rewritten whole; the persisted entry is never
mutated in place. -/
theorem ack_persist_appends :
    ∀ (alert_id notes : String) (now : Int) (s : AMState) (a : Alert),
      get_alert_by_id s alert_id = some a →
      (acknowledge_alert alert_id notes now s).1 = true
      ∧ (acknowledge_alert alert_id notes now s).2.history
          = save_alert s.history (ackUpdate a notes now)
      ∧ (ackUpdate a notes now).id = a.id
      ∧ (ackUpdate a notes now).acknowledged = true := by
  intro alert_id notes now s a h
  obtain ⟨ha, pre, post, hl, hpre, heq⟩ :=
    acknowledge_alert_of_find?_some alert_id notes now s a h
  exact ⟨by rw [heq], by rw [heq], rfl, rfl⟩

/-- Witness for the amended C4: the single stored alert of `ackDemoState1`
acknowledged at tick 7. -/
theorem ack_persist_appends_witness :
    get_alert_by_id ackDemoState1 "ALERT-5" = some (buildAlert 5 rdU drU)
    ∧ (acknowledge_alert "ALERT-5" "checked" 7 ackDemoState1).1 = true
    ∧ (acknowledge_alert "ALERT-5" "checked" 7 ackDemoState1).2.history
        = save_alert ackDemoState1.history
            (ackUpdate (buildAlert 5 rdU drU) "checked" 7) :=
  ⟨by decide,
   (ack_persist_appends "ALERT-5" "checked" 7 ackDemoState1
      (buildAlert 5 rdU drU) (by decide)).1,
   (ack_persist_appends "ALERT-5" "checked" 7 ackDemoState1
      (buildAlert 5 rdU drU) (by decide)).2.1⟩

/-- C8: acknowledging an unknown id returns `False` with no state change and
no exception (the operation is total); acknowledging a stored id sets that
record's `acknowledged`, `notes` and `acknowledged_at` fields, persists the
update via `save_alert`, returns `True`, and the updated record is what the
store then yields for that id. -/
theorem acknowledge_contract :
    ∀ (alert_id notes : String) (now : Int) (s : AMState),
      (get_alert_by_id s alert_id = none →
        acknowledge_alert alert_id notes now s = (false, s))
      ∧ (∀ a : Alert, get_alert_by_id s alert_id = some a →
          (acknowledge_alert alert_id notes now s).1 = true
          ∧ get_alert_by_id (acknowledge_alert alert_id notes now s).2 alert_id
              = some (ackUpdate a notes now)
          ∧ (ackUpdate a notes now).acknowledged = true
          ∧ (ackUpdate a notes now).notes = notes
          ∧ (ackUpdate a notes now).acknowledged_at = some now
          ∧ (acknowledge_alert alert_id notes now s).2.history
              = save_alert s.history (ackUpdate a notes now)) := by
  intro alert_id notes now s
  constructor
  · intro h
    exact acknowledge_alert_of_find?_none alert_id notes now s h
  · intro a h
    obtain ⟨ha, pre, post, hl, hpre, heq⟩ :=
      acknowledge_alert_of_find?_some alert_id notes now s a h
    have hup : (ackUpdate a notes now).id = alert_id := ha
    refine ⟨by rw [heq], ?_, rfl, rfl, rfl, by rw [heq]⟩
    rw [heq]
    show List.find? (fun x => decide (x.id = alert_id))
        (pre ++ ackUpdate a notes now :: post) = some (ackUpdate a notes now)
    rw [find?_append_of_all_false (fun x hx => decide_eq_false (hpre x hx)) _]
    exact List.find?_cons_of_pos _ (decide_eq_true hup)

/-- Witness for C8: the not-found branch at an unknown id and the found
branch at the stored id `ALERT-5`, both on `ackDemoState1`. -/
theorem acknowledge_contract_witness :
    get_alert_by_id ackDemoState1 "MISSING" = none
    ∧ acknowledge_alert "MISSING" "n" 9 ackDemoState1 = (false, ackDemoState1)
    ∧ get_alert_by_id ackDemoState1 "ALERT-5" = some (buildAlert 5 rdU drU)
    ∧ (acknowledge_alert "ALERT-5" "checked" 7 ackDemoState1).1 = true
    ∧ get_alert_by_id
        (acknowledge_alert "ALERT-5" "checked" 7 ackDemoState1).2 "ALERT-5"
        = some (ackUpdate (buildAlert 5 rdU drU) "checked" 7) :=
  ⟨by decide,
   (acknowledge_contract "MISSING" "n" 9 ackDemoState1).1 (by decide),
   by decide,
   ((acknowledge_contract "ALERT-5" "checked" 7 ackDemoState1).2
      (buildAlert 5 rdU drU) (by decide)).1,
   ((acknowledge_contract "ALERT-5" "checked" 7 ackDemoState1).2
      (buildAlert 5 rdU drU) (by decide)).2.1⟩

/-- C10: on a non-empty store the statistics partition the stored records by
acknowledgment: the acknowledged and unacknowledged counts are present, sum to
`total_alerts`, and `total_alerts` is the number of records in the store. -/
theorem stats_partition :
    ∀ (now : Int) (s : AMState), s.alerts ≠ [] →
      (get_statistics now s).total_alerts = s.alerts.length
      ∧ (get_statistics now s).acknowledged_count
          = some (s.alerts.countP (fun a => a.acknowledged))
      ∧ (get_statistics now s).unacknowledged_count
          = some (s.alerts.countP (fun a => !a.acknowledged))
      ∧ s.alerts.countP (fun a => a.acknowledged)
          + s.alerts.countP (fun a => !a.acknowledged)
          = (get_statistics now s).total_alerts := by
  intro now s h
  have hne : s.alerts.isEmpty = false := by
    cases hs : s.alerts with
    | nil => exact absurd hs h
    | cons a t => rfl
  have hif : ¬ (s.alerts.isEmpty = true) := by
    rw [hne]
    exact Bool.false_ne_true
  unfold get_statistics
  rw [if_neg hif]
  exact ⟨rfl, rfl, rfl,
    (countP_add_countP_not (fun a => a.acknowledged) s.alerts).trans rfl⟩

/-- Witness for C10 on the one-alert store `ackDemoState1`. -/
theorem stats_partition_witness :
    ackDemoState1.alerts ≠ []
    ∧ (get_statistics 0 ackDemoState1).total_alerts
        = ackDemoState1.alerts.length
    ∧ ackDemoState1.alerts.countP (fun a => a.acknowledged)
        + ackDemoState1.alerts.countP (fun a => !a.acknowledged)
        = (get_statistics 0 ackDemoState1).total_alerts :=
  ⟨by decide,
   (stats_partition 0 ackDemoState1 (by decide)).1,
   (stats_partition 0 ackDemoState1 (by decide)).2.2.2⟩

/-! ### Rate-limiter window invariant -/

theorem create_alert_window_le {K : Nat} {s : AMState}
    (h : s.recent_alerts.length ≤ min K 100) (now : Int) (rd : RequestData)
    (dr : DetectionResult) :
    ((create_alert K now rd dr s).2).recent_alerts.length ≤ min K 100 := by
  have hev : (evictOld now s.recent_alerts).length ≤ s.recent_alerts.length :=
    length_dropWhile_le' _ _
  by_cases hadm : (evictOld now s.recent_alerts).length < K
  · rw [create_alert_admitted hadm]
    show (appendB 100 (evictOld now s.recent_alerts) now).length ≤ min K 100
    unfold appendB
    by_cases h100 : 100 ≤ (evictOld now s.recent_alerts).length
    · rw [if_pos h100, List.length_append, List.length_singleton,
        List.length_drop]
      omega
    · rw [if_neg h100, List.length_append, List.length_singleton]
      omega
  · rw [create_alert_reject hadm]
    show (evictOld now s.recent_alerts).length ≤ min K 100
    omega

theorem runCreates_window_le (K : Nat) :
    ∀ (calls : List (Int × RequestData × DetectionResult)) (s : AMState),
      s.recent_alerts.length ≤ min K 100 →
      ((runCreates K calls s).2).recent_alerts.length ≤ min K 100
  | [], s, h => by simpa [runCreates] using h
  | (t, rd, dr) :: rest, s, h => by
    rw [runCreates_cons]
    exact runCreates_window_le K rest _ (create_alert_window_le h t rd dr)

/-- C9: a `create_alert` call rejected by the rate limiter returns `None`
and leaves the whole reachable state — in-memory store, per-source counts,
rate-limiter window, and history file — unchanged (and raises nothing: the
operation is total). -/
theorem reject_no_side_effects :
    ∀ (K : Nat) (h : List Alert)
      (calls : List (Int × RequestData × DetectionResult))
      (now : Int) (rd : RequestData) (dr : DetectionResult),
      (create_alert K now rd dr (runCreates K calls (mkInit h)).2).1 = none →
      (create_alert K now rd dr (runCreates K calls (mkInit h)).2).2
        = (runCreates K calls (mkInit h)).2 := by
  intro K h calls now rd dr hn
  have hw : ((runCreates K calls (mkInit h)).2).recent_alerts.length
      ≤ min K 100 := by
    apply runCreates_window_le
    show ([] : List Int).length ≤ min K 100
    simp
  set s := (runCreates K calls (mkInit h)).2 with hs
  by_cases hadm : (evictOld now s.recent_alerts).length < K
  · rw [create_alert_admitted hadm] at hn
    exact absurd hn (by simp)
  · rw [create_alert_reject hadm]
    have hle : (evictOld now s.recent_alerts).length
        ≤ s.recent_alerts.length := length_dropWhile_le' _ _
    have heq : (evictOld now s.recent_alerts).length
        = s.recent_alerts.length := by omega
    have hev : evictOld now s.recent_alerts = s.recent_alerts :=
      dropWhile_eq_self_of_length heq
    rw [hev]

/-- Witness for C9: with maximum 1 per minute, a second call at the same tick
is rejected and changes nothing. -/
theorem reject_no_side_effects_witness :
    (create_alert 1 0 rdU drU
        (runCreates 1 [((0 : Int), rdU, drU)] (mkInit [])).2).1 = none
    ∧ (create_alert 1 0 rdU drU
        (runCreates 1 [((0 : Int), rdU, drU)] (mkInit [])).2).2
        = (runCreates 1 [((0 : Int), rdU, drU)] (mkInit [])).2 :=
  ⟨by decide,
   reject_no_side_effects 1 [] [((0 : Int), rdU, drU)] 0 rdU drU (by decide)⟩

/-! ### Burst behaviour of the rate limiter -/

theorem countP_eq_of_map_isSome :
    ∀ (l : List (Option Alert)) (bl : List Bool),
      l.map Option.isSome = bl →
      l.countP (fun r => r.isSome) = bl.countP (fun x => x)
      ∧ l.countP (fun r => !r.isSome) = bl.countP (fun x => !x)
  | [], bl, h => by
    simp at h
    subst h
    simp
  | r :: l, bl, h => by
    rw [List.map_cons] at h
    subst h
    obtain ⟨h1, h2⟩ := countP_eq_of_map_isSome l _ rfl
    constructor <;> cases r <;> simp [List.countP_cons, h1, h2]

theorem burst_aux {K : Nat} (hK : K ≤ 100) (b : Int) :
    ∀ (calls : List (Int × RequestData × DetectionResult)) (s : AMState)
      (w : List Int), s.recent_alerts = w →
      (∀ x ∈ w, b ≤ x) →
      (∀ c ∈ calls, b ≤ c.1 ∧ c.1 ≤ b + 60) →
      w.length ≤ K →
      (runCreates K calls s).1.map Option.isSome
        = List.replicate (min calls.length (K - w.length)) true
          ++ List.replicate (calls.length - (K - w.length)) false
  | [], s, w, hsw, _, _, _ => by simp [runCreates]
  | (t, rd, dr) :: rest, s, w, hsw, hw, hc, hlen => by
    obtain ⟨hbt, ht60⟩ := hc (t, rd, dr) (List.mem_cons_self _ _)
    have hc1 : ∀ c ∈ rest, b ≤ c.1 ∧ c.1 ≤ b + 60 :=
      fun c hcm => hc c (List.mem_cons_of_mem _ hcm)
    have hev : evictOld t s.recent_alerts = w := by
      rw [hsw]
      apply dropWhile_all_false
      intro x hx
      have hbx := hw x hx
      simp only [decide_eq_false_iff_not]
      omega
    rw [runCreates_cons]
    by_cases hadm : (evictOld t s.recent_alerts).length < K
    · have hlt : w.length < K := by rw [hev] at hadm; exact hadm
      rw [create_alert_admitted hadm]
      have happ : appendB 100 (evictOld t s.recent_alerts) t = w ++ [t] := by
        rw [hev]
        unfold appendB
        rw [if_neg (by omega)]
      have hw1 : ∀ x ∈ w ++ [t], b ≤ x := by
        intro x hx
        rcases List.mem_append.mp hx with hx' | hx'
        · exact hw x hx'
        · rw [List.mem_singleton] at hx'
          subst hx'
          exact hbt
      have hlen1 : (w ++ [t]).length ≤ K := by
        rw [List.length_append, List.length_singleton]
        omega
      have hst : ({ alerts := appendB 1000 s.alerts (buildAlert t rd dr)
                    alert_counts :=
                      bumpCount s.alert_counts (buildAlert t rd dr).ip
                    recent_alerts := appendB 100 (evictOld t s.recent_alerts) t
                    history := save_alert s.history (buildAlert t rd dr) }
            : AMState).recent_alerts = w ++ [t] := by
        show appendB 100 (evictOld t s.recent_alerts) t = w ++ [t]
        exact happ
      have ih := burst_aux hK b rest _ _ hst hw1 hc1 hlen1
      rw [List.map_cons, ih, List.length_append, List.length_singleton,
        List.length_cons]
      simp only [Option.isSome_some]
      have h1 : min (rest.length + 1) (K - w.length)
          = min rest.length (K - (w.length + 1)) + 1 := by omega
      have h2 : rest.length + 1 - (K - w.length)
          = rest.length - (K - (w.length + 1)) := by omega
      rw [h1, h2, List.replicate_succ, List.cons_append]
    · have hlenK : w.length = K := by
        rw [hev] at hadm
        omega
      rw [create_alert_reject hadm]
      have hst : ({ s with recent_alerts := evictOld t s.recent_alerts }
            : AMState).recent_alerts = w := by
        show evictOld t s.recent_alerts = w
        exact hev
      have ih := burst_aux hK b rest _ _ hst hw hc1 hlen
      rw [List.map_cons, ih, List.length_cons]
      simp only [Option.isSome_none]
      have h0 : K - w.length = 0 := by omega
      rw [h0]
      simp [List.replicate_succ]

/-- C2 amended: for a configured maximum K of at most 100 (the capacity of
the `maxlen=100` timestamp deque), K+1 `create_alert` calls within 1 second
from a fresh manager yield exactly K non-null results followed by 1 null
result; each admission check evicts the stale prefix (for a chronologically
ordered window, everything older than 60 seconds, leaving only timestamps
within the window), and a new timestamp is recorded iff the remaining window
size is below K. -/
theorem rate_limiter_burst :
    (∀ (K : Nat) (b : Int)
        (calls : List (Int × RequestData × DetectionResult)),
        K ≤ 100 → calls.length = K + 1 →
        (∀ c ∈ calls, b ≤ c.1 ∧ c.1 ≤ b + 1) →
        (runCreates K calls (mkInit [])).1.map Option.isSome
            = List.replicate K true ++ [false]
        ∧ (runCreates K calls (mkInit [])).1.countP (fun r => r.isSome) = K
        ∧ (runCreates K calls (mkInit [])).1.countP (fun r => !r.isSome) = 1)
    ∧ (∀ (K : Nat) (now : Int) (w : List Int),
        w.Pairwise (fun x y => x ≤ y) →
        ∀ x ∈ (should_create_alert K now w).2, now - 60 ≤ x)
    ∧ (∀ (K : Nat) (now : Int) (rd : RequestData) (dr : DetectionResult)
        (s : AMState),
        ((evictOld now s.recent_alerts).length < K →
          ((create_alert K now rd dr s).2).recent_alerts
            = appendB 100 (evictOld now s.recent_alerts) now)
        ∧ (¬ (evictOld now s.recent_alerts).length < K →
          ((create_alert K now rd dr s).2).recent_alerts
            = evictOld now s.recent_alerts)) := by
  refine ⟨?_, ?_, ?_⟩
  · intro K b calls hK hlen hband
    have hband60 : ∀ c ∈ calls, b ≤ c.1 ∧ c.1 ≤ b + 60 := by
      intro c hc
      obtain ⟨h1, h2⟩ := hband c hc
      exact ⟨h1, by omega⟩
    have hinit : (mkInit []).recent_alerts = ([] : List Int) := rfl
    have h := burst_aux hK b calls (mkInit []) [] hinit (by simp) hband60
      (by simp)
    rw [List.length_nil, Nat.sub_zero, hlen] at h
    have hm : min (K + 1) K = K := by omega
    have hs : K + 1 - K = 1 := by omega
    rw [hm, hs, List.replicate_one] at h
    refine ⟨h, ?_, ?_⟩
    · obtain ⟨h1, _⟩ := countP_eq_of_map_isSome _ _ h
      rw [h1, List.countP_append, countP_replicate]
      simp
    · obtain ⟨_, h2⟩ := countP_eq_of_map_isSome _ _ h
      rw [h2, List.countP_append, countP_replicate]
      simp
  · intro K now w hp x hx
    have h2 : (should_create_alert K now w).2 = evictOld now w := rfl
    rw [h2] at hx
    unfold evictOld at hx
    exact dropWhile_sorted_ge hp x hx
  · intro K now rd dr s
    constructor
    · intro hlt
      rw [create_alert_admitted hlt]
    · intro hge
      rw [create_alert_reject hge]

/-- Witness for the amended C2 at K = 2 with three same-tick calls. -/
theorem rate_limiter_burst_witness :
    (2 : Nat) ≤ 100
    ∧ burstCalls3.length = 2 + 1
    ∧ (runCreates 2 burstCalls3 (mkInit [])).1.map Option.isSome
        = List.replicate 2 true ++ [false]
    ∧ (runCreates 2 burstCalls3 (mkInit [])).1.countP (fun r => r.isSome) = 2
    ∧ (runCreates 2 burstCalls3 (mkInit [])).1.countP (fun r => !r.isSome)
        = 1 :=
  ⟨by decide, by decide,
   (rate_limiter_burst.1 2 0 burstCalls3 (by decide) (by decide)
      (by decide)).1,
   (rate_limiter_burst.1 2 0 burstCalls3 (by decide) (by decide)
      (by decide)).2.1,
   (rate_limiter_burst.1 2 0 burstCalls3 (by decide) (by decide)
      (by decide)).2.2⟩

set_option maxRecDepth 10000 in
/-- C2 counterexample: with a configured maximum of K = 101 (legal per the
spec, which gives the threshold no intrinsic bound) the `maxlen=100` deque
silently discards the oldest recorded timestamp on each append, so all 102
same-tick calls are admitted: the claimed `exactly K non-null and 1 null`
fails. -/
theorem rate_limiter_claim_ctrex :
    ¬ ((runCreates 101 burstCalls102 (mkInit [])).1.countP
          (fun r => r.isSome) = 101
       ∧ (runCreates 101 burstCalls102 (mkInit [])).1.countP
          (fun r => !r.isSome) = 1) := by
  decide

theorem filter_ext (p q : α → Bool) (h : ∀ a, p a = q a) :
    ∀ l : List α, l.filter p = l.filter q
  | [] => rfl
  | a :: l => by
    rw [List.filter_cons, List.filter_cons, h a, filter_ext p q h l]

theorem filter_true_eq_self : ∀ l : List α, l.filter (fun _ => true) = l
  | [] => rfl
  | a :: l => by rw [List.filter_cons, if_pos rfl, filter_true_eq_self l]

/-- C6: for a meaningful severity filter (a value, not the Python-falsy empty
string), `get_alerts` returns exactly the stored records matching the optional
severity filter and the optional acknowledgment filter (exact matches,
combined with logical AND), sorted by creation timestamp descending, truncated
to at most `limit` records. -/
theorem get_alerts_spec :
    ∀ (s : AMState) (limit : Nat) (severity : Option String)
      (acknowledged : Option Bool), severity ≠ some "" →
      get_alerts s limit severity acknowledged
          = (sortByDesc (fun a => a.timestamp)
              (s.alerts.filter
                (matchesFiltersSpec severity acknowledged))).take limit
      ∧ (get_alerts s limit severity acknowledged).Pairwise
          (fun a b => b.timestamp ≤ a.timestamp)
      ∧ (get_alerts s limit severity acknowledged).length ≤ limit
      ∧ (sortByDesc (fun a => a.timestamp)
            (s.alerts.filter (matchesFiltersSpec severity acknowledged))).Perm
          (s.alerts.filter (matchesFiltersSpec severity acknowledged))
      ∧ (∀ a : Alert,
          a ∈ s.alerts.filter (matchesFiltersSpec severity acknowledged)
            ↔ a ∈ s.alerts
              ∧ matchesFiltersSpec severity acknowledged a = true) := by
  intro s limit severity acknowledged hsev
  have hmain : get_alerts s limit severity acknowledged
      = (sortByDesc (fun a => a.timestamp)
          (s.alerts.filter
            (matchesFiltersSpec severity acknowledged))).take limit := by
    cases severity with
    | none =>
      cases acknowledged with
      | none =>
        rw [filter_ext (matchesFiltersSpec none none) (fun _ => true)
            (fun a => rfl) s.alerts, filter_true_eq_self]
        simp [get_alerts]
      | some ack =>
        rw [filter_ext (matchesFiltersSpec none (some ack))
            (fun a => decide (a.acknowledged = ack))
            (fun a => by simp [matchesFiltersSpec]) s.alerts]
        simp [get_alerts]
    | some sev =>
      have hs : ¬ sev = "" := fun h => hsev (by rw [h])
      cases acknowledged with
      | none =>
        rw [filter_ext (matchesFiltersSpec (some sev) none)
            (fun a => decide (a.severity = sev))
            (fun a => by simp [matchesFiltersSpec]) s.alerts]
        simp [get_alerts, hs]
      | some ack =>
        have h1 : s.alerts.filter (matchesFiltersSpec (some sev) (some ack))
            = (s.alerts.filter (fun a => decide (a.severity = sev))).filter
                (fun a => decide (a.acknowledged = ack)) := by
          rw [filter_fuse]
          exact filter_ext _ _ (fun a => by simp [matchesFiltersSpec]) s.alerts
        rw [h1]
        simp [get_alerts, hs]
  refine ⟨hmain, ?_, ?_, perm_sortByDesc _ _, fun a => List.mem_filter⟩
  · rw [hmain]
    exact List.Pairwise.take
      (pairwise_sortByDesc (fun a : Alert => a.timestamp) _)
  · rw [hmain, List.length_take]
    omega

/-- Witness for C6: a high-severity query on the one-alert store. -/
theorem get_alerts_spec_witness :
    (some "high" : Option String) ≠ some ""
    ∧ get_alerts ackDemoState1 5 (some "high") none
        = (sortByDesc (fun a => a.timestamp)
            (ackDemoState1.alerts.filter
              (matchesFiltersSpec (some "high") none))).take 5
    ∧ (get_alerts ackDemoState1 5 (some "high") none).length ≤ 5 :=
  ⟨by decide,
   (get_alerts_spec ackDemoState1 5 (some "high") none (by decide)).1,
   (get_alerts_spec ackDemoState1 5 (some "high") none (by decide)).2.2.1⟩
